import Mathlib

/-!
Verification of the audio-analyzer repository against its specification.

The development shallowly embeds the two source files:
  * `src/services/geminiService.ts` — Gemini API wrappers
    (generateSceneDescription, translateText, translateBatch,
    analyzeAudioDeeply), the audio pipeline (extractAudioFromVideo,
    bufferToWav, blobToBase64);
  * `src/components/SubtitleList.tsx` — the subtitle list component
    (formatTime, the timestamp sort of the render body).

Modelling conventions:
  * JavaScript numbers are modelled as rationals (ℚ); sample values,
    timestamps and second counts are exact rationals.  `x | 0` (ToInt32 on
    values whose magnitude is below 2^31) and `Math.trunc` are truncation
    toward zero; `Math.floor` is `⌊⌋`.
  * Bytes are natural numbers below 256; `DataView.setUint16/setUint32`
    little-endian writes become explicit base-256 digit lists, each digit
    reduced `% 256` exactly as the ToUint32/ToUint16 conversions do.
  * Fallible operations return `Option`/`Except`; thrown-and-caught
    JavaScript errors are values of an abstract error type `ε`.
-/

namespace AudioAnalyzer

/-! ## JavaScript numeric primitives -/

/-- Truncation toward zero on ℚ: the value of the JavaScript expression
`q | 0` for `|q| < 2^31` (ToInt32 truncates toward zero and wraps mod 2^32;
no wrap occurs in the ranges this code produces), and of `Math.trunc q`. -/
def truncToInt (q : ℚ) : ℤ := if q < 0 then ⌈q⌉ else ⌊q⌋

/-! ## The AudioBuffer data model

A Web Audio `AudioBuffer`: channel count, sample rate (Hz), frame count
(`AudioBuffer.length`) and per-channel sample data.  The Web Audio API
guarantees `channelData` has `numberOfChannels` entries, each of
`length` samples; `wf` records that invariant. -/

structure AudioBuffer where
  numberOfChannels : ℕ
  sampleRate : ℕ
  length : ℕ
  channelData : List (List ℚ)

/-- Well-formedness of an `AudioBuffer`, as the Web Audio API guarantees:
one sample list per channel, each holding `length` samples. -/
def AudioBuffer.wf (ab : AudioBuffer) : Prop :=
  ab.channelData.length = ab.numberOfChannels ∧
    ∀ c ∈ ab.channelData, c.length = ab.length

/-- `abuffer.getChannelData(i)[pos]` (0 when out of range; never reached on
well-formed buffers within the loop bounds of `bufferToWav`). -/
def channelSample (ab : AudioBuffer) (i pos : ℕ) : ℚ :=
  (ab.channelData.getD i []).getD pos 0

/-! ## bufferToWav (src/services/geminiService.ts, lines 248-302) -/

/-- One sample conversion from the interleaving loop of `bufferToWav`:

    sample = Math.max(-1, Math.min(1, channels[i][pos])); // clamp

the clamp to [-1, 1]. -/
def clampSample (s : ℚ) : ℚ := max (-1) (min 1 s)

/-- The scaling line of `bufferToWav`:

    sample = (0.5 + sample < 0 ? sample * 32768 : sample * 32767) | 0;

JavaScript precedence parses the condition as `(0.5 + sample) < 0`,
i.e. `sample < -0.5`; `| 0` truncates toward zero. -/
def encodeSample (s0 : ℚ) : ℤ :=
  let s := clampSample s0
  truncToInt (if (1/2 : ℚ) + s < 0 then s * 32768 else s * 32767)

/-- `view.setUint16(pos, data, true)`: two little-endian bytes of
`data mod 2^16` (ToUint16). -/
def u16Bytes (n : ℕ) : List ℕ := [n % 256, n / 256 % 256]

/-- `view.setUint32(pos, data, true)`: four little-endian bytes of
`data mod 2^32` (ToUint32). -/
def u32Bytes (n : ℕ) : List ℕ :=
  [n % 256, n / 256 % 256, n / 65536 % 256, n / 16777216 % 256]

/-- `view.setInt16(off, sample, true)`: the two little-endian bytes of the
sample's two's-complement 16-bit representation. -/
def i16Bytes (v : ℤ) : List ℕ := u16Bytes (v % 65536).toNat

/-- The 44-byte RIFF/WAVE header exactly as the sequence of `setUint32` /
`setUint16` calls of `bufferToWav` lays it down (each call advances `pos`
by the bytes it writes, so the writes are consecutive from offset 0):

    setUint32(0x46464952);                 // "RIFF"
    setUint32(length - 8);                 // file length - 8
    setUint32(0x45564157);                 // "WAVE"
    setUint32(0x20746d66);                 // "fmt " chunk
    setUint32(16);                         // length = 16
    setUint16(1);                          // PCM (uncompressed)
    setUint16(numOfChan);
    setUint32(abuffer.sampleRate);
    setUint32(abuffer.sampleRate * 2 * numOfChan); // avg. bytes/sec
    setUint16(numOfChan * 2);              // block-align
    setUint16(16);                         // 16-bit
    setUint32(0x61746164);                 // "data" - chunk
    setUint32(length - pos - 4);           // chunk length (pos = 40 here)

with `length = abuffer.length * numOfChan * 2 + 44`. -/
def wavHeader (ab : AudioBuffer) : List ℕ :=
  let numOfChan := ab.numberOfChannels
  let length := ab.length * numOfChan * 2 + 44
  u32Bytes 0x46464952 ++ u32Bytes (length - 8) ++ u32Bytes 0x45564157 ++
    u32Bytes 0x20746d66 ++ u32Bytes 16 ++ u16Bytes 1 ++ u16Bytes numOfChan ++
    u32Bytes ab.sampleRate ++ u32Bytes (ab.sampleRate * 2 * numOfChan) ++
    u16Bytes (numOfChan * 2) ++ u16Bytes 16 ++
    u32Bytes 0x61746164 ++ u32Bytes (length - 40 - 4)

/-- The interleaving loop of `bufferToWav`:

    while (pos < abuffer.length) {
      for (i = 0; i < numOfChan; i++) {
        sample = ...clamp...; sample = ...scale...;
        view.setInt16(44 + offset, sample, true); offset += 2;
      }
      pos++;
    }

as the list of encoded 16-bit samples, frame-major then channel. -/
def interleavedSamples (ab : AudioBuffer) : List ℤ :=
  (List.range ab.length).flatMap fun pos =>
    (List.range ab.numberOfChannels).map fun i =>
      encodeSample (channelSample ab i pos)

/-- `bufferToWav` (lines 248-302): the byte content of the returned
`audio/wav` blob — its `ArrayBuffer(length)` after the header writes at
bytes 0-43 and the sample writes at bytes `44 + offset`.  The writes are
consecutive and exactly fill the allocation, so the buffer is the header
bytes followed by the interleaved sample bytes. -/
def bufferToWav (ab : AudioBuffer) : List ℕ :=
  wavHeader ab ++ (interleavedSamples ab).flatMap i16Bytes

/-! ## Byte readers used to state header properties -/

/-- Little-endian 16-bit read at byte offset `off`. -/
def readU16LE (bs : List ℕ) (off : ℕ) : ℕ :=
  bs.getD off 0 + 256 * bs.getD (off + 1) 0

/-- Little-endian 32-bit read at byte offset `off`. -/
def readU32LE (bs : List ℕ) (off : ℕ) : ℕ :=
  bs.getD off 0 + 256 * bs.getD (off + 1) 0 +
    65536 * bs.getD (off + 2) 0 + 16777216 * bs.getD (off + 3) 0

/-! ## blobToBase64 (lines 305-317) -/

/-- The RFC 4648 base64 alphabet. -/
def base64Alphabet : String :=
  "ABCDEFGHIJKLMNOPQRSTUVWXYZabcdefghijklmnopqrstuvwxyz0123456789+/"

/-- The base64 digit for a 6-bit value. -/
def b64Char (n : ℕ) : Char := base64Alphabet.toList.getD n '?'

/-- Standard base64 encoding with padding of a byte list, three input bytes
to four output characters. -/
def base64Encode : List ℕ → String
  | [] => ""
  | [a] => String.mk [b64Char (a / 4), b64Char (a % 4 * 16), '=', '=']
  | [a, b] =>
      String.mk [b64Char (a / 4), b64Char (a % 4 * 16 + b / 16),
        b64Char (b % 16 * 4), '=']
  | a :: b :: c :: rest =>
      String.mk [b64Char (a / 4), b64Char (a % 4 * 16 + b / 16),
        b64Char (b % 16 * 4 + c / 64), b64Char (c % 64)] ++ base64Encode rest

/-- `blobToBase64` (lines 305-317) as a function of the blob's byte content.
`FileReader.readAsDataURL` yields `"data:audio/wav;base64," ++ b` where `b`
is the standard base64 encoding of the blob's bytes, and
`base64data.split(',')[1]` keeps exactly `b` (the base64 alphabet and the
padding character contain no comma). -/
def blobToBase64 (blobBytes : List ℕ) : String := base64Encode blobBytes

/-! ## extractAudioFromVideo (lines 222-245)

`decodeAudioData` and `OfflineAudioContext.startRendering` are browser
codecs, not code of this repository; they enter the model as function
parameters.  `RenderContract` records what the Web Audio specification
guarantees about an offline render: the rendered buffer has exactly the
channel count, frame length and sample rate the `OfflineAudioContext` was
constructed with. -/

/-- `const targetSampleRate = 16000;` (line 232). -/
def targetSampleRate : ℕ := 16000

/-- The `length` argument of
`new OfflineAudioContext(1, audioBuffer.duration * targetSampleRate, targetSampleRate)`
(line 233): `duration = length / sampleRate`, and WebIDL converts the
product to an unsigned integer by truncation, giving
`⌊frames * 16000 / sampleRate⌋`. -/
def offlineRenderLength (ab : AudioBuffer) : ℕ :=
  ab.length * targetSampleRate / ab.sampleRate

/-- Guarantee of the Web Audio API for an offline render: the rendered
buffer carries the constructor's channel count, length and sample rate.
The sample content (the resampling itself) is unconstrained. -/
def RenderContract (render : ℕ → ℕ → ℕ → AudioBuffer → AudioBuffer) : Prop :=
  ∀ ch len rate src,
    (render ch len rate src).numberOfChannels = ch ∧
    (render ch len rate src).length = len ∧
    (render ch len rate src).sampleRate = rate

/-- `extractAudioFromVideo` (lines 222-245), parameterised by the browser
codecs: read the file bytes, decode them to an `AudioBuffer`, render it
through a mono 16 kHz `OfflineAudioContext`, encode the rendered buffer
with `bufferToWav` and convert the blob to base64 with `blobToBase64`.
A decoding failure rejects the promise (`none`). -/
def extractAudioFromVideo (decodeAudioData : List ℕ → Option AudioBuffer)
    (render : ℕ → ℕ → ℕ → AudioBuffer → AudioBuffer)
    (videoFile : List ℕ) : Option String :=
  match decodeAudioData videoFile with
  | none => none
  | some audioBuffer =>
      let renderedBuffer :=
        render 1 (offlineRenderLength audioBuffer) targetSampleRate audioBuffer
      let wavBlob := bufferToWav renderedBuffer
      some (blobToBase64 wavBlob)

/-- The pipeline exactly as the spec words it: "a single linear
decode→resample→encode→base64 conversion" — decode the file's bytes, render
to one channel at 16000 Hz, encode with `bufferToWav`, base64 the blob with
the data-URL prefix removed.  Stated separately from
`extractAudioFromVideo` so the refinement claim compares the two. -/
def extractAudioPipelineSpec (decodeAudioData : List ℕ → Option AudioBuffer)
    (render : ℕ → ℕ → ℕ → AudioBuffer → AudioBuffer)
    (videoFile : List ℕ) : Option String :=
  (decodeAudioData videoFile).map fun ab =>
    blobToBase64 (bufferToWav (render 1 (offlineRenderLength ab)
      targetSampleRate ab))

/-- The PCM16 conversion as the claim words it ("truncation toward zero of
s x 32768 when s is negative, and truncation toward zero of s x 32767 when
s is non-negative", after the clamp) — stated separately from
`encodeSample` so the two can be compared. -/
def encodeSampleClaimed (s0 : ℚ) : ℤ :=
  let s := clampSample s0
  truncToInt (if s < 0 then s * 32768 else s * 32767)

/-! ## JavaScript string primitives used by the API wrappers -/

/-- The JavaScript WhiteSpace and LineTerminator code points that
`String.prototype.trim` removes. -/
def isJsWhitespace (c : Char) : Bool :=
  c.val = 9 || c.val = 10 || c.val = 11 || c.val = 12 || c.val = 13 ||
    c.val = 32 || c.val = 0xA0 || c.val = 0xFEFF || c.val = 0x1680 ||
    (0x2000 ≤ c.val && c.val ≤ 0x200A) || c.val = 0x2028 || c.val = 0x2029 ||
    c.val = 0x202F || c.val = 0x205F || c.val = 0x3000

/-- `String.prototype.trim`: drop leading and trailing whitespace. -/
def jsTrim (s : String) : String :=
  String.mk
    (((s.data.dropWhile isJsWhitespace).reverse.dropWhile
      isJsWhitespace).reverse)

/-- Truthiness of the optional `response.text` field: `if (response.text)`
holds exactly when the field is present and is a non-empty string. -/
def jsTruthyText : Option String → Bool
  | none => false
  | some t => !t.isEmpty

/-- The regex replace of line 13,
`base64Image.replace(/^data:image\/(png|jpeg|jpg);base64,/, "")`:
remove one leading image data-URL marker if present. -/
def stripImageDataUrl (s : String) : String :=
  if s.startsWith "data:image/png;base64," then s.drop 22
  else if s.startsWith "data:image/jpeg;base64," then s.drop 23
  else if s.startsWith "data:image/jpg;base64," then s.drop 22
  else s

/-! ## Gemini API wrappers (lines 10-217)

Each wrapper performs at most one `ai.models.generateContent` call inside a
`try` block and ends in `catch (error) { console.error(...); throw error }`.
The network call is modelled by its outcome `GcResult ε`: either the
promise rejects with an error of the abstract error type `ε`, or it
resolves with the optional `response.text` string.  `new Error(msg)` is an
abstract `mkError : String → ε`, and `JSON.parse` is an abstract
`parse : String → Except ε _` (it may throw).  Each wrapper returns its
result or thrown error together with `ApiEffects`: how many
`generateContent` calls were made and what `console.error` logged. -/

/-- Outcome of one `ai.models.generateContent` call. -/
inductive GcResult (ε : Type) where
  | success : Option String → GcResult ε
  | failure : ε → GcResult ε

/-- Observable effects of one wrapper invocation: number of
`generateContent` calls made and the errors passed to `console.error`. -/
structure ApiEffects (ε : Type) where
  gcCalls : ℕ
  errorLog : List ε
deriving Repr, DecidableEq

/-- `generateSceneDescription` (lines 10-49).  The request payload
(`cleanBase64`, prompt, model name, config) does not influence control
flow; the call outcome is the `gc` parameter.  `response.text` truthy
returns `response.text.trim()`; otherwise `new Error("No text generated
from Gemini.")` is thrown, and the `catch` logs any thrown error and
re-throws it. -/
def generateSceneDescription {ε : Type} (gc : GcResult ε)
    (mkError : String → ε) (base64Image : String) :
    Except ε String × ApiEffects ε :=
  let _cleanBase64 := stripImageDataUrl base64Image
  match gc with
  | .failure e => (Except.error e, ⟨1, [e]⟩)
  | .success rtext =>
      if jsTruthyText rtext then
        (Except.ok (jsTrim (rtext.getD "")), ⟨1, []⟩)
      else
        let e := mkError "No text generated from Gemini."
        (Except.error e, ⟨1, [e]⟩)

/-- `translateText` (lines 54-87).  `if (!text || !text.trim()) return "";`
short-circuits before the call; otherwise one call is made, a truthy
`response.text` returns trimmed, an absent or empty one raises `new
Error("Translation returned empty text.")`, and the `catch` logs and
re-throws. -/
def translateText {ε : Type} (gc : GcResult ε) (mkError : String → ε)
    (text : String) : Except ε String × ApiEffects ε :=
  if text.isEmpty || (jsTrim text).isEmpty then (Except.ok "", ⟨0, []⟩)
  else
    match gc with
    | .failure e => (Except.error e, ⟨1, [e]⟩)
    | .success rtext =>
        if jsTruthyText rtext then
          (Except.ok (jsTrim (rtext.getD "")), ⟨1, []⟩)
        else
          let e := mkError "Translation returned empty text."
          (Except.error e, ⟨1, [e]⟩)

/-- `translateBatch` (lines 93-129).  `if (texts.length === 0) return [];`
short-circuits before the call; otherwise one call is made, a truthy
`response.text` is fed to `JSON.parse` (whose own exception is caught by
the same `catch`), an absent or empty text raises `new Error("No JSON
generated for translation batch.")`, and the `catch` logs and re-throws. -/
def translateBatch {ε : Type} (gc : GcResult ε)
    (parse : String → Except ε (List String)) (mkError : String → ε)
    (texts : List String) : Except ε (List String) × ApiEffects ε :=
  if texts.length = 0 then (Except.ok [], ⟨0, []⟩)
  else
    match gc with
    | .failure e => (Except.error e, ⟨1, [e]⟩)
    | .success rtext =>
        if jsTruthyText rtext then
          match parse (rtext.getD "") with
          | .ok arr => (Except.ok arr, ⟨1, []⟩)
          | .error e => (Except.error e, ⟨1, [e]⟩)
        else
          let e := mkError "No JSON generated for translation batch."
          (Except.error e, ⟨1, [e]⟩)

/-- `analyzeAudioDeeply` (lines 135-217).  One call; a truthy
`response.text` is fed to `JSON.parse` (exception caught by the same
`catch`), an absent or empty text raises `new Error("No JSON generated.")`,
and the `catch` logs and re-throws.  The parsed segments value has the
abstract type `α`. -/
def analyzeAudioDeeply {ε α : Type} (gc : GcResult ε)
    (parse : String → Except ε α) (mkError : String → ε)
    (base64Audio : String) : Except ε α × ApiEffects ε :=
  let _audio := base64Audio
  match gc with
  | .failure e => (Except.error e, ⟨1, [e]⟩)
  | .success rtext =>
      if jsTruthyText rtext then
        match parse (rtext.getD "") with
        | .ok segments => (Except.ok segments, ⟨1, []⟩)
        | .error e => (Except.error e, ⟨1, [e]⟩)
      else
        let e := mkError "No JSON generated."
        (Except.error e, ⟨1, [e]⟩)

/-! ## SubtitleList (src/components/SubtitleList.tsx) -/

/-- Modelled from the spec: the music metrics of a segment record.  The
`SubtitleNode` type lives in `../types.ts`, which is not among the source
files; the spec describes the records as "a subtitle/segment with
timestamp, text, optional speaker/emotion/music metrics", and the
component reads the fields `source`-like metrics `harmonicMode`, `tempo`,
`dynamics`, `sentimentScore`. -/
structure MusicAnalysisInfo where
  harmonicMode : String
  tempo : String
  dynamics : String
  sentimentScore : ℚ
deriving Repr, DecidableEq

/-- Modelled from the spec: the `SubtitleNode` display record from
`../types.ts` (not among the source files) — "a subtitle/segment with
timestamp, text, optional speaker/emotion/music metrics", carrying exactly
the fields the `SubtitleList` component reads. -/
structure SubtitleNode where
  id : String
  timestamp : ℚ
  endTime : Option ℚ
  type : String
  text : String
  speaker : Option String
  emotion : Option String
  translation : Option String
  thumbnail : Option String
  musicAnalysis : Option MusicAnalysisInfo
deriving Repr, DecidableEq

/-- Content of a JavaScript array after
`arr.sort((a, b) => a.timestamp - b.timestamp)`: a stable sort by
nondecreasing timestamp (`Array.prototype.sort` is stable, and the
comparator orders by the `timestamp` field). -/
def sortByTimestamp (subs : List SubtitleNode) : List SubtitleNode :=
  List.insertionSort (fun a b => a.timestamp ≤ b.timestamp) subs

/-- The render body of `SubtitleList` (lines 335-473): an empty `subtitles`
list renders the "No analysis data" placeholder (`none`); otherwise
`const sortedSubtitles = [...subtitles].sort((a, b) => a.timestamp - b.timestamp);`
and the component maps over `sortedSubtitles`, so the entries are rendered
exactly in that order (`some` of it). -/
def subtitleListRender (subs : List SubtitleNode) :
    Option (List SubtitleNode) :=
  if subs.length = 0 then none else some (sortByTimestamp subs)

/-- One evaluation of the `SubtitleList` body with the array-object
semantics made explicit: `[...subtitles]` allocates a fresh array with the
same elements, `.sort` mutates only that fresh array, and the `subtitles`
array object is never written.  The result is (final content of the input
array object, content rendered from).  Had the code sorted `subtitles`
itself, the first component would be the sorted list instead. -/
def subtitleListStep (subs : List SubtitleNode) :
    List SubtitleNode × Option (List SubtitleNode) :=
  let inputArrayFinal := subs
  (inputArrayFinal, subtitleListRender subs)

/-! ## formatTime (SubtitleList.tsx, lines 329-333) -/

/-- The JavaScript remainder `a % b` for finite operands and `b > 0`:
`a - b * Math.trunc (a / b)` (result has the sign of the dividend). -/
def jsFmod (a b : ℚ) : ℚ := a - b * (truncToInt (a / b) : ℚ)

/-- `String.prototype.padStart(n, c)`: left-pad with `c` up to length `n`. -/
def jsPadStart (s : String) (n : ℕ) (c : Char) : String :=
  if n ≤ s.length then s
  else String.mk (List.replicate (n - s.length) c) ++ s

/-- `formatTime` (lines 329-333):

    const min = Math.floor(seconds / 60);
    const sec = Math.floor(seconds % 60);
    return `(min):(sec.toString().padStart(2, '0'))`;   -- backtick template

(the template braces are elided above). -/
def formatTime (seconds : ℚ) : String :=
  let min := ⌊seconds / 60⌋
  let sec := ⌊jsFmod seconds 60⌋
  toString min ++ ":" ++ jsPadStart (toString sec) 2 '0'

/-! ## Concrete fixtures used by the witness theorems -/

/-- A two-channel, three-frame test buffer at 8000 Hz. -/
def testBuf : AudioBuffer :=
  { numberOfChannels := 2
    sampleRate := 8000
    length := 3
    channelData := [[1, 0, -1], [0, 1, 0]] }

/-- A mono 16000 Hz test buffer, as an offline render would produce. -/
def testMonoBuf : AudioBuffer :=
  { numberOfChannels := 1
    sampleRate := 16000
    length := 2
    channelData := [[0, 1]] }

/-- A decoder stub resolving every file to `testBuf`. -/
def testDecode : List ℕ → Option AudioBuffer := fun _ => some testBuf

/-- A renderer stub honouring the Web Audio offline-render contract:
the output carries the constructor arguments. -/
def testRender : ℕ → ℕ → ℕ → AudioBuffer → AudioBuffer :=
  fun ch len rate _ =>
    { numberOfChannels := ch
      sampleRate := rate
      length := len
      channelData := List.replicate ch (List.replicate len 0) }

/-- A subtitle fixture with a late timestamp. -/
def subLate : SubtitleNode :=
  { id := "a"
    timestamp := 5
    endTime := none
    type := "dialogue"
    text := "later"
    speaker := none
    emotion := none
    translation := none
    thumbnail := none
    musicAnalysis := none }

/-- A subtitle fixture with an early timestamp. -/
def subEarly : SubtitleNode :=
  { id := "b"
    timestamp := 2
    endTime := none
    type := "scene"
    text := "earlier"
    speaker := none
    emotion := none
    translation := none
    thumbnail := none
    musicAnalysis := none }

/-! ## Helper lemmas -/

theorem length_flatMap_const {α β : Type} (f : α → List β) (k : ℕ)
    (hf : ∀ a, (f a).length = k) :
    ∀ l : List α, (l.flatMap f).length = k * l.length := by
  intro l
  induction l with
  | nil => simp
  | cons a t ih =>
      simp only [List.flatMap_cons, List.length_append, List.length_cons, hf, ih]
      ring

theorem interleavedSamples_length (ab : AudioBuffer) :
    (interleavedSamples ab).length = ab.length * ab.numberOfChannels := by
  unfold interleavedSamples
  rw [length_flatMap_const _ ab.numberOfChannels (by simp)]
  simp [Nat.mul_comm]

theorem bufferToWav_length (ab : AudioBuffer) :
    (bufferToWav ab).length = ab.length * ab.numberOfChannels * 2 + 44 := by
  unfold bufferToWav
  rw [List.length_append,
    length_flatMap_const i16Bytes 2 (fun _ => rfl) (interleavedSamples ab),
    interleavedSamples_length]
  have h44 : (wavHeader ab).length = 44 := by
    simp [wavHeader, u32Bytes, u16Bytes]
  rw [h44]
  ring

theorem wavHeader_len44 (ab : AudioBuffer) : (wavHeader ab).length = 44 := by
  simp [wavHeader, u32Bytes, u16Bytes]

theorem readFormatTag (ab : AudioBuffer) (rest : List ℕ) :
    readU16LE (wavHeader ab ++ rest) 20 = 1 := by
  simp [wavHeader, u32Bytes, u16Bytes, readU16LE, List.getD]

theorem readNumChannels (ab : AudioBuffer) (rest : List ℕ)
    (h : ab.numberOfChannels < 65536) :
    readU16LE (wavHeader ab ++ rest) 22 = ab.numberOfChannels := by
  simp [wavHeader, u32Bytes, u16Bytes, readU16LE, List.getD]
  omega

theorem readSampleRate (ab : AudioBuffer) (rest : List ℕ)
    (h : ab.sampleRate < 4294967296) :
    readU32LE (wavHeader ab ++ rest) 24 = ab.sampleRate := by
  simp [wavHeader, u32Bytes, u16Bytes, readU32LE, List.getD]
  omega

theorem readBitsPerSample (ab : AudioBuffer) (rest : List ℕ) :
    readU16LE (wavHeader ab ++ rest) 34 = 16 := by
  simp [wavHeader, u32Bytes, u16Bytes, readU16LE, List.getD]

theorem readRiffChunkSize (ab : AudioBuffer) (rest : List ℕ)
    (h : ab.length * ab.numberOfChannels * 2 + 44 < 4294967296) :
    readU32LE (wavHeader ab ++ rest) 4 =
      ab.length * ab.numberOfChannels * 2 + 44 - 8 := by
  simp [wavHeader, u32Bytes, u16Bytes, readU32LE, List.getD]
  omega

theorem readFmtChunkLen (ab : AudioBuffer) (rest : List ℕ) :
    readU32LE (wavHeader ab ++ rest) 16 = 16 := by
  simp [wavHeader, u32Bytes, u16Bytes, readU32LE, List.getD]

theorem readByteRate (ab : AudioBuffer) (rest : List ℕ)
    (h : ab.sampleRate * 2 * ab.numberOfChannels < 4294967296) :
    readU32LE (wavHeader ab ++ rest) 28 =
      ab.sampleRate * 2 * ab.numberOfChannels := by
  simp [wavHeader, u32Bytes, u16Bytes, readU32LE, List.getD]
  omega

theorem readBlockAlign (ab : AudioBuffer) (rest : List ℕ)
    (h : ab.numberOfChannels * 2 < 65536) :
    readU16LE (wavHeader ab ++ rest) 32 = ab.numberOfChannels * 2 := by
  simp [wavHeader, u32Bytes, u16Bytes, readU16LE, List.getD]
  omega

theorem readDataChunkSize (ab : AudioBuffer) (rest : List ℕ)
    (h : ab.length * ab.numberOfChannels * 2 + 44 < 4294967296) :
    readU32LE (wavHeader ab ++ rest) 40 =
      ab.length * ab.numberOfChannels * 2 := by
  simp [wavHeader, u32Bytes, u16Bytes, readU32LE, List.getD]
  omega

theorem encodeSample_bounds (s0 : ℚ) :
    -32768 ≤ encodeSample s0 ∧ encodeSample s0 ≤ 32767 := by
  unfold encodeSample clampSample truncToInt
  set s := max (-1) (min 1 s0) with hs
  have h1 : (-1 : ℚ) ≤ s := le_max_left _ _
  have h2 : s ≤ 1 := max_le (by norm_num) (min_le_left _ _)
  by_cases hc : (1/2 : ℚ) + s < 0
  · have hq1 : (-32768 : ℚ) ≤ s * 32768 := by nlinarith
    have hq2 : s * 32768 < 0 := by nlinarith
    simp only [if_pos hc, if_pos hq2]
    constructor
    · have hm := Int.ceil_mono hq1
      have hcast : (⌈(-32768 : ℚ)⌉ : ℤ) = -32768 := by
        rw [show ((-32768 : ℚ)) = ((-32768 : ℤ) : ℚ) by norm_num, Int.ceil_intCast]
      omega
    · have hle : ⌈s * 32768⌉ ≤ 0 := Int.ceil_le.mpr (by push_cast; linarith)
      omega
  · have hge : (-(1/2) : ℚ) ≤ s := by linarith
    simp only [if_neg hc]
    by_cases hq : s * 32767 < 0
    · simp only [if_pos hq]
      constructor
      · have hq1 : (-32768 : ℚ) ≤ s * 32767 := by nlinarith
        have hm := Int.ceil_mono hq1
        have hcast : (⌈(-32768 : ℚ)⌉ : ℤ) = -32768 := by
          rw [show ((-32768 : ℚ)) = ((-32768 : ℤ) : ℚ) by norm_num,
            Int.ceil_intCast]
        omega
      · have hle : ⌈s * 32767⌉ ≤ 0 := Int.ceil_le.mpr (by push_cast; linarith)
        omega
    · simp only [if_neg hq]
      push_neg at hq
      constructor
      · have h0 : (0 : ℤ) ≤ ⌊s * 32767⌋ := Int.floor_nonneg.mpr hq
        omega
      · have hq2 : s * 32767 ≤ (32767 : ℚ) := by nlinarith
        have hm := Int.floor_mono hq2
        have hcast : (⌊(32767 : ℚ)⌋ : ℤ) = 32767 := by
          rw [show ((32767 : ℚ)) = ((32767 : ℤ) : ℚ) by norm_num,
            Int.floor_intCast]
        omega

/-! ## Claim theorems -/

/-- C2: for every AudioBuffer (whose sizes fit the 32- and 16-bit header
fields), `bufferToWav` produces a mutually consistent textbook WAV header:
RIFF chunk size = total length - 8, fmt chunk length = 16, byte rate =
sampleRate x 2 x channels, block align = channels x 2, and data chunk size
= frames x channels x 2 = total length - 44; the header is 44 bytes. -/
theorem bufferToWav_header_consistent (ab : AudioBuffer)
    (hsize : ab.length * ab.numberOfChannels * 2 + 44 < 4294967296)
    (hrate : ab.sampleRate * 2 * ab.numberOfChannels < 4294967296)
    (hch : ab.numberOfChannels * 2 < 65536) :
    (wavHeader ab).length = 44 ∧
    (bufferToWav ab).length = ab.length * ab.numberOfChannels * 2 + 44 ∧
    readU32LE (bufferToWav ab) 4 = (bufferToWav ab).length - 8 ∧
    readU32LE (bufferToWav ab) 16 = 16 ∧
    readU32LE (bufferToWav ab) 28 = ab.sampleRate * 2 * ab.numberOfChannels ∧
    readU16LE (bufferToWav ab) 32 = ab.numberOfChannels * 2 ∧
    readU32LE (bufferToWav ab) 40 =
      ab.length * ab.numberOfChannels * 2 ∧
    readU32LE (bufferToWav ab) 40 = (bufferToWav ab).length - 44 := by
  have hlen := bufferToWav_length ab
  unfold bufferToWav at *
  refine ⟨wavHeader_len44 ab, hlen, ?_, readFmtChunkLen ab _,
    readByteRate ab _ hrate,
    readBlockAlign ab _ hch, readDataChunkSize ab _ hsize, ?_⟩
  · rw [hlen, readRiffChunkSize ab _ hsize]
  · rw [hlen, readDataChunkSize ab _ hsize]
    omega

/-- C4: `bufferToWav` writes only within its allocation: the allocation is
`44 + frames x channels x 2` bytes, the header occupies exactly bytes
0-43, every 2-byte sample write at offset `44 + 2k` ends strictly within
the buffer, and every encoded sample value lies in [-32768, 32767]. -/
theorem bufferToWav_writes_in_bounds (ab : AudioBuffer) :
    (wavHeader ab).length = 44 ∧
    (bufferToWav ab).length = 44 + ab.length * ab.numberOfChannels * 2 ∧
    (∀ k, k < (interleavedSamples ab).length →
      44 + 2 * k + 1 < 44 + ab.length * ab.numberOfChannels * 2) ∧
    ∀ v ∈ interleavedSamples ab, -32768 ≤ v ∧ v ≤ 32767 := by
  refine ⟨wavHeader_len44 ab, ?_, ?_, ?_⟩
  · rw [bufferToWav_length ab]; ring
  · intro k hk
    rw [interleavedSamples_length] at hk
    omega
  · intro v hv
    simp only [interleavedSamples, List.mem_flatMap, List.mem_map,
      List.mem_range] at hv
    obtain ⟨pos, _, i, _, rfl⟩ := hv
    exact encodeSample_bounds _

/-- C1: for every video file whose audio track decodes successfully,
`extractAudioFromVideo` returns the base64 encoding of a WAV byte string
whose format chunk declares PCM (audio format tag 1) at offset 20, one
channel at offset 22, a 16000 Hz sample rate at offset 24, and 16 bits per
sample at offset 34. -/
theorem extractAudio_declares_pcm16_mono_16k
    (decodeAudioData : List ℕ → Option AudioBuffer)
    (render : ℕ → ℕ → ℕ → AudioBuffer → AudioBuffer)
    (videoFile : List ℕ) (ab : AudioBuffer)
    (hrc : RenderContract render)
    (hdec : decodeAudioData videoFile = some ab) :
    ∃ w, extractAudioFromVideo decodeAudioData render videoFile =
        some (base64Encode w) ∧
      readU16LE w 20 = 1 ∧
      readU16LE w 22 = 1 ∧
      readU32LE w 24 = 16000 ∧
      readU16LE w 34 = 16 := by
  obtain ⟨hch, hlen, hrate⟩ :=
    hrc 1 (offlineRenderLength ab) targetSampleRate ab
  set rb := render 1 (offlineRenderLength ab) targetSampleRate ab with hrb
  refine ⟨bufferToWav rb, ?_, ?_, ?_, ?_, ?_⟩
  · unfold extractAudioFromVideo
    rw [hdec]
    rfl
  · exact readFormatTag rb _
  · rw [show bufferToWav rb = wavHeader rb ++
      (interleavedSamples rb).flatMap i16Bytes from rfl,
      readNumChannels rb _ (by omega), hch]
  · rw [show bufferToWav rb = wavHeader rb ++
      (interleavedSamples rb).flatMap i16Bytes from rfl,
      readSampleRate rb _ (by rw [hrate]; unfold targetSampleRate; omega),
      hrate]
    rfl
  · exact readBitsPerSample rb _

/-- Witness for C1 at a concrete decoder, renderer and file. -/
theorem extractAudio_declares_pcm16_mono_16k_witness :
    RenderContract testRender ∧
    testDecode [7] = some testBuf ∧
    ∃ w, extractAudioFromVideo testDecode testRender [7] =
        some (base64Encode w) ∧
      readU16LE w 20 = 1 ∧
      readU16LE w 22 = 1 ∧
      readU32LE w 24 = 16000 ∧
      readU16LE w 34 = 16 :=
  ⟨fun _ _ _ _ => ⟨rfl, rfl, rfl⟩, rfl,
    extractAudio_declares_pcm16_mono_16k testDecode testRender [7] testBuf
      (fun _ _ _ _ => ⟨rfl, rfl, rfl⟩) rfl⟩

/-- Witness for C2 at a concrete two-channel three-frame buffer. -/
theorem bufferToWav_header_consistent_witness :
    (testBuf.length * testBuf.numberOfChannels * 2 + 44 < 4294967296 ∧
      testBuf.sampleRate * 2 * testBuf.numberOfChannels < 4294967296 ∧
      testBuf.numberOfChannels * 2 < 65536) ∧
    ((wavHeader testBuf).length = 44 ∧
      (bufferToWav testBuf).length =
        testBuf.length * testBuf.numberOfChannels * 2 + 44 ∧
      readU32LE (bufferToWav testBuf) 4 = (bufferToWav testBuf).length - 8 ∧
      readU32LE (bufferToWav testBuf) 16 = 16 ∧
      readU32LE (bufferToWav testBuf) 28 =
        testBuf.sampleRate * 2 * testBuf.numberOfChannels ∧
      readU16LE (bufferToWav testBuf) 32 = testBuf.numberOfChannels * 2 ∧
      readU32LE (bufferToWav testBuf) 40 =
        testBuf.length * testBuf.numberOfChannels * 2 ∧
      readU32LE (bufferToWav testBuf) 40 =
        (bufferToWav testBuf).length - 44) :=
  ⟨⟨by decide, by decide, by decide⟩,
    bufferToWav_header_consistent testBuf (by decide) (by decide) (by decide)⟩

/-- Witness for C4 at a concrete two-channel three-frame buffer. -/
theorem bufferToWav_writes_in_bounds_witness :
    (wavHeader testBuf).length = 44 ∧
    (bufferToWav testBuf).length =
      44 + testBuf.length * testBuf.numberOfChannels * 2 ∧
    (∀ k, k < (interleavedSamples testBuf).length →
      44 + 2 * k + 1 <
        44 + testBuf.length * testBuf.numberOfChannels * 2) ∧
    ∀ v ∈ interleavedSamples testBuf, -32768 ≤ v ∧ v ≤ 32767 :=
  bufferToWav_writes_in_bounds testBuf

/-- C3 counterexample: at the already-clamped sample -1/4 the code encodes
-8191 (it scales by 32767 because the branch condition is
`(0.5 + sample) < 0`, i.e. `sample < -0.5`), while the claimed conversion
— scale negative samples by 32768 — yields -8192. -/
theorem encodeSample_claim_counterexample :
    encodeSample (-(1/4)) = -8191 ∧
    encodeSampleClaimed (-(1/4)) = -8192 ∧
    encodeSample (-(1/4)) ≠ encodeSampleClaimed (-(1/4)) := by
  refine ⟨?_, ?_, ?_⟩ <;>
    norm_num [encodeSample, encodeSampleClaimed, clampSample, truncToInt,
      Int.ceil_neg]

/-- C3 amended: each sample is clamped to [-1, 1] and then truncated toward
zero after scaling by 32768 when the clamped sample is below -1/2 and by
32767 otherwise (the branch tests `(0.5 + sample) < 0`, not
`sample < 0`); the endpoints still map to -32768 and 32767. -/
theorem encodeSample_amended (s : ℚ) :
    encodeSample s =
      truncToInt (if clampSample s < -(1/2) then clampSample s * 32768
        else clampSample s * 32767) ∧
    encodeSample (-1) = -32768 ∧
    encodeSample 1 = 32767 := by
  refine ⟨?_, ?_, ?_⟩
  · simp only [encodeSample]
    by_cases h : (1/2 : ℚ) + clampSample s < 0
    · rw [if_pos h, if_pos (by linarith : clampSample s < -(1/2))]
    · rw [if_neg h, if_neg (fun hx => h (by linarith))]
  · norm_num [encodeSample, clampSample, truncToInt, Int.ceil_neg]
  · norm_num [encodeSample, clampSample, truncToInt]

/-- C5: `extractAudioFromVideo` equals the linear four-stage composition
the spec describes — decode, offline mono 16 kHz render, `bufferToWav`,
`blobToBase64` — with no other transformation of the data. -/
theorem extractAudio_is_linear_pipeline
    (decodeAudioData : List ℕ → Option AudioBuffer)
    (render : ℕ → ℕ → ℕ → AudioBuffer → AudioBuffer)
    (videoFile : List ℕ) :
    extractAudioFromVideo decodeAudioData render videoFile =
      extractAudioPipelineSpec decodeAudioData render videoFile := by
  unfold extractAudioFromVideo extractAudioPipelineSpec
  cases decodeAudioData videoFile <;> rfl

/-- C6: each of the four Gemini wrappers makes at most one
`generateContent` call per invocation, and whenever the call or the
processing of its result throws, the wrapper logs exactly that error and
re-throws the same error unchanged — no retry, fallback or recovery. -/
theorem apiWrappers_single_call_log_rethrow {ε α : Type} (gc : GcResult ε)
    (mkError : String → ε) (parseBatch : String → Except ε (List String))
    (parseSeg : String → Except ε α) (img text audio : String)
    (texts : List String) :
    ((generateSceneDescription gc mkError img).2.gcCalls ≤ 1 ∧
      ∀ e, (generateSceneDescription gc mkError img).1 = Except.error e →
        (generateSceneDescription gc mkError img).2.errorLog = [e]) ∧
    ((translateText gc mkError text).2.gcCalls ≤ 1 ∧
      ∀ e, (translateText gc mkError text).1 = Except.error e →
        (translateText gc mkError text).2.errorLog = [e]) ∧
    ((translateBatch gc parseBatch mkError texts).2.gcCalls ≤ 1 ∧
      ∀ e, (translateBatch gc parseBatch mkError texts).1 = Except.error e →
        (translateBatch gc parseBatch mkError texts).2.errorLog = [e]) ∧
    ((analyzeAudioDeeply gc parseSeg mkError audio).2.gcCalls ≤ 1 ∧
      ∀ e, (analyzeAudioDeeply gc parseSeg mkError audio).1 =
          Except.error e →
        (analyzeAudioDeeply gc parseSeg mkError audio).2.errorLog = [e]) := by
  refine ⟨⟨?_, ?_⟩, ⟨?_, ?_⟩, ⟨?_, ?_⟩, ⟨?_, ?_⟩⟩
  · unfold generateSceneDescription
    rcases gc with rtext | e
    · cases ht : jsTruthyText rtext <;> simp [ht]
    · simp
  · unfold generateSceneDescription
    rcases gc with rtext | e
    · cases ht : jsTruthyText rtext <;> simp [ht]
    · simp
  · unfold translateText
    split
    · simp
    · rcases gc with rtext | e
      · cases ht : jsTruthyText rtext <;> simp [ht]
      · simp
  · unfold translateText
    split
    · simp
    · rcases gc with rtext | e
      · cases ht : jsTruthyText rtext <;> simp [ht]
      · simp
  · unfold translateBatch
    split
    · simp
    · rcases gc with rtext | e
      · cases ht : jsTruthyText rtext <;> simp [ht]
        rcases hp : parseBatch (rtext.getD "") with e2 | arr <;> simp [hp]
      · simp
  · unfold translateBatch
    split
    · simp
    · rcases gc with rtext | e
      · cases ht : jsTruthyText rtext <;> simp [ht]
        rcases hp : parseBatch (rtext.getD "") with e2 | arr <;> simp [hp]
      · simp
  · unfold analyzeAudioDeeply
    rcases gc with rtext | e
    · cases ht : jsTruthyText rtext <;> simp [ht]
      rcases hp : parseSeg (rtext.getD "") with e2 | seg <;> simp [hp]
    · simp
  · unfold analyzeAudioDeeply
    rcases gc with rtext | e
    · cases ht : jsTruthyText rtext <;> simp [ht]
      rcases hp : parseSeg (rtext.getD "") with e2 | seg <;> simp [hp]
    · simp

/-- Witness for C6 at a failing call: the error is logged verbatim and
one call was made. -/
theorem apiWrappers_single_call_log_rethrow_witness :
    (generateSceneDescription (GcResult.failure "boom") (fun s => s)
      "img").2.errorLog = ["boom"] ∧
    (translateBatch (GcResult.failure "boom")
      (fun _ => Except.ok []) (fun s => s) ["x"]).2.gcCalls ≤ 1 :=
  ⟨(apiWrappers_single_call_log_rethrow (GcResult.failure "boom")
      (fun s => s) (fun _ => Except.ok []) (fun _ => Except.ok "")
      "img" "t" "a" ["x"]).1.2 "boom" rfl,
    (apiWrappers_single_call_log_rethrow (GcResult.failure "boom")
      (fun s => s) (fun _ => Except.ok []) (fun _ => Except.ok "")
      "img" "t" "a" ["x"]).2.2.1.1⟩

/-- C7: on a non-empty list, `SubtitleList` renders all the subtitle
entries in nondecreasing timestamp order, whatever the input order. -/
theorem subtitleList_renders_sorted (subs : List SubtitleNode)
    (h : subs ≠ []) :
    ∃ l, subtitleListRender subs = some l ∧ l.Perm subs ∧
      List.Sorted (fun a b => a.timestamp ≤ b.timestamp) l := by
  haveI : IsTotal SubtitleNode (fun a b => a.timestamp ≤ b.timestamp) :=
    ⟨fun a b => le_total _ _⟩
  haveI : IsTrans SubtitleNode (fun a b => a.timestamp ≤ b.timestamp) :=
    ⟨fun _ _ _ h1 h2 => le_trans h1 h2⟩
  refine ⟨sortByTimestamp subs, ?_, List.perm_insertionSort _ _,
    List.sorted_insertionSort _ _⟩
  unfold subtitleListRender
  rw [if_neg (fun hc => h (List.length_eq_zero.mp hc))]

/-- Witness for C7 at a two-element list given out of order. -/
theorem subtitleList_renders_sorted_witness :
    ([subLate, subEarly] : List SubtitleNode) ≠ [] ∧
    ∃ l, subtitleListRender [subLate, subEarly] = some l ∧
      l.Perm [subLate, subEarly] ∧
      List.Sorted (fun a b => a.timestamp ≤ b.timestamp) l :=
  ⟨by simp, subtitleList_renders_sorted [subLate, subEarly] (by simp)⟩

/-- C10: the `SubtitleList` body never mutates the `subtitles` array it
receives — the sort runs on the spread copy, so after rendering the input
array holds the same elements in the same order, and the rendered list is
a permutation of it. -/
theorem subtitleList_input_unchanged (subs : List SubtitleNode) :
    (subtitleListStep subs).1 = subs ∧
    ∀ l, (subtitleListStep subs).2 = some l → l.Perm subs := by
  refine ⟨rfl, ?_⟩
  intro l hl
  unfold subtitleListStep subtitleListRender at hl
  by_cases h0 : subs.length = 0
  · simp [h0] at hl
  · simp [h0] at hl
    rw [← hl]
    exact List.perm_insertionSort _ _

/-- Witness for C10 at a concrete two-element list. -/
theorem subtitleList_input_unchanged_witness :
    (subtitleListStep [subLate, subEarly]).1 = [subLate, subEarly] ∧
    ∀ l, (subtitleListStep [subLate, subEarly]).2 = some l →
      l.Perm [subLate, subEarly] :=
  subtitleList_input_unchanged [subLate, subEarly]

/-- C8: `translateText` on an empty or whitespace-only string returns the
empty string with no API call, no thrown error and nothing logged, and
`translateBatch` on the empty array likewise returns the empty array. -/
theorem emptyInput_no_api_call {ε : Type} (gc : GcResult ε)
    (mkError : String → ε) (parseBatch : String → Except ε (List String)) :
    (∀ text : String, text.data.all isJsWhitespace = true →
      translateText gc mkError text =
        (Except.ok "", ⟨0, []⟩)) ∧
    translateBatch gc parseBatch mkError [] =
      (Except.ok [], ⟨0, []⟩) := by
  constructor
  · intro text ht
    have hdrop : text.data.dropWhile isJsWhitespace = [] :=
      List.dropWhile_eq_nil_iff.mpr (fun x hx => List.all_eq_true.mp ht x hx)
    have htrim : jsTrim text = String.mk [] := by
      simp [jsTrim, hdrop]
    unfold translateText
    rw [if_pos (by rw [htrim]; simp; exact Or.inr rfl)]
  · unfold translateBatch
    rfl

/-- Witness for C8 on a whitespace-only string. -/
theorem emptyInput_no_api_call_witness :
    (" \t".data.all isJsWhitespace = true ∧
      translateText (GcResult.failure "boom") (fun s => s) " \t" =
        (Except.ok "", ⟨0, []⟩)) ∧
    translateBatch (GcResult.failure "boom") (fun _ => Except.ok [])
      (fun s => s) [] = (Except.ok [], ⟨0, []⟩) :=
  ⟨⟨by decide,
    (emptyInput_no_api_call (GcResult.failure "boom") (fun s => s)
      (fun _ => Except.ok [])).1 " \t" (by decide)⟩,
    (emptyInput_no_api_call (GcResult.failure "boom") (fun s => s)
      (fun _ => Except.ok [])).2⟩

/-- A two-digit decimal never needs more than the zero padding gives:
for values below 60 the padded seconds string has exactly two
characters. -/
theorem padStart_two_digits :
    ∀ m : ℕ, m < 60 → (jsPadStart (Nat.repr m) 2 '0').length = 2 := by
  decide

/-- C9: for every non-negative (finite) number of seconds, `formatTime`
returns `Math.floor(seconds / 60)`, a colon, and
`Math.floor(seconds % 60)` left-padded with '0' to two digits; the part
after the colon is exactly two characters and denotes a value in
[0, 60). -/
theorem formatTime_correct (s : ℚ) (h : 0 ≤ s) :
    formatTime s =
      toString ⌊s / 60⌋ ++ ":" ++
        jsPadStart (toString ⌊jsFmod s 60⌋) 2 '0' ∧
    0 ≤ ⌊jsFmod s 60⌋ ∧ ⌊jsFmod s 60⌋ < 60 ∧
    (jsPadStart (toString ⌊jsFmod s 60⌋) 2 '0').length = 2 := by
  have hdiv : (0 : ℚ) ≤ s / 60 := by positivity
  have htr : jsFmod s 60 = s - 60 * (⌊s / 60⌋ : ℚ) := by
    unfold jsFmod truncToInt
    rw [if_neg (not_lt.mpr hdiv)]
  have hfl : ((⌊s / 60⌋ : ℤ) : ℚ) ≤ s / 60 := Int.floor_le _
  have hfu : s / 60 < (⌊s / 60⌋ : ℚ) + 1 := Int.lt_floor_add_one _
  have hcancel : (60 : ℚ) * (s / 60) = s := by
    field_simp
  have hge : (0 : ℚ) ≤ jsFmod s 60 := by
    rw [htr]
    nlinarith
  have hlt : jsFmod s 60 < 60 := by
    rw [htr]
    nlinarith
  have hn0 : 0 ≤ ⌊jsFmod s 60⌋ := Int.floor_nonneg.mpr hge
  have hn60 : ⌊jsFmod s 60⌋ < 60 := by
    apply Int.floor_lt.mpr
    exact_mod_cast hlt
  refine ⟨rfl, hn0, hn60, ?_⟩
  set n := ⌊jsFmod s 60⌋ with hn
  rcases n with m | m
  · rw [show toString (Int.ofNat m) = Nat.repr m from rfl]
    apply padStart_two_digits
    have h60 : (Int.ofNat m) < Int.ofNat 60 := hn60
    exact Int.ofNat_lt.mp h60
  · exact absurd hn0 (not_le.mpr (Int.negSucc_lt_zero m))

/-- Witness for C9 at 61 seconds. -/
theorem formatTime_correct_witness :
    (0 : ℚ) ≤ 61 ∧
    (formatTime 61 =
      toString ⌊(61 : ℚ) / 60⌋ ++ ":" ++
        jsPadStart (toString ⌊jsFmod 61 60⌋) 2 '0' ∧
    0 ≤ ⌊jsFmod (61 : ℚ) 60⌋ ∧ ⌊jsFmod (61 : ℚ) 60⌋ < 60 ∧
    (jsPadStart (toString ⌊jsFmod (61 : ℚ) 60⌋) 2 '0').length = 2) :=
  ⟨by norm_num, formatTime_correct 61 (by norm_num)⟩

end AudioAnalyzer
